import Mathlib

/-!
Shallow embedding of `src/stt_listener.py` (class `STTListener`), the speech
listener with a start/stop worker-thread lifecycle and cooperative
cancellation.

Modelling conventions:

* The controller's mutable attributes become fields of `STT.Ctrl`.  The
  `threading.Event` named `stop_listening` is the Boolean `stop_flag`; the
  attribute `speech_thread` (a handle or `None`) is the Boolean
  `speech_thread` (handle present or not); `threads` counts live worker
  threads, so that the single-worker invariant is statable.
* Caller-side operations (`toggle_speech`, `start_speech`, `stop_speech`,
  `shutdown`) are atomic state transitions.  `Thread.join(timeout=1.0)` is
  modelled as completing within its bound: the real-time race in which the
  join times out while the worker is blocked inside a backend call is a
  timing behaviour outside this model.
* Messages routed through `self._log` (the log sink) are returned as a list
  of strings; the process-wide `logging.*` calls are not observable events
  of the model.
* The worker loop `listen_speech` consumes a list of per-iteration backend
  outcomes: either the capture call raises `WaitTimeoutError`, or capture
  succeeds and recognition yields text / `UnknownValueError` /
  `RequestError`.  The externally set cancellation flag is modelled by an
  optional threshold `sA`: the flag reads true exactly when the number of
  completed blocking backend calls has reached `sA` (`none` means the flag
  is never set).  Since `stop()`/`shutdown()` set `is_listening := False`
  and the flag together, the loop condition is modelled by the flag read
  alone, plus the worker's own `is_listening := False` write on
  `RequestError`, tracked in the result.  The loop emits an event trace
  recording every flag read, log-sink message, blocking backend call,
  callback invocation, and caught callback exception; the run ends when the
  supplied outcome list is exhausted (a finite observation window).
* The registered text callback may raise: `cb t = true` means the callback
  raises on text `t`; `_on_transcription` catches this and records a
  `cbRaised` event (the `logging.exception` record).
-/

namespace STT

/-- Outcome of `recognize_google` on a captured audio sample. -/
inductive RecogOutcome where
  | text (t : String)
  | notUnderstood
  | requestError (e : String)
deriving DecidableEq, Repr

/-- Outcome of one worker-loop iteration attempt: the capture call
(`recognizer.listen`) raises `WaitTimeoutError`, or it returns audio and
recognition yields `r`. -/
inductive Iter where
  | timeout
  | recog (r : RecogOutcome)
deriving DecidableEq, Repr

/-- Observable events of a worker-loop run. -/
inductive Ev where
  | checkStop (b : Bool)
  | logged (m : String)
  | captureCall
  | recognizeCall
  | sinkCall (t : String)
  | cbRaised (t : String)
deriving DecidableEq, Repr

/-- Value of the cancellation flag once `c` blocking backend calls have
completed: `none` means the flag is never set. -/
def flagSet : Option Nat → Nat → Bool
  | none, _ => false
  | some n, c => decide (n ≤ c)

/-- Result of a worker-loop run: the worker-side value of `is_listening`
(the worker sets it to `False` on `RequestError`), the event trace, and the
unconsumed backend outcomes (backend calls the worker never made). -/
structure RunResult where
  listening : Bool
  events : List Ev
  rest : List Iter
deriving DecidableEq, Repr

/-- Embedding of `STTListener.listen_speech` (src/stt_listener.py lines
162-186).  Arguments: `cb` tells which texts make the registered callback
raise, `sA` is the cancellation-flag threshold, then the count of completed
blocking calls and the backend outcome list. -/
def listen_speech (cb : String → Bool) (sA : Option Nat) :
    Nat → List Iter → RunResult
  | c, [] =>
    if flagSet sA c then ⟨true, [.checkStop true], []⟩
    else ⟨true, [.checkStop false], []⟩
  | c, .timeout :: rest =>
    if flagSet sA c then ⟨true, [.checkStop true], .timeout :: rest⟩
    else
      let r := listen_speech cb sA (c + 1) rest
      ⟨r.listening,
       .checkStop false :: .logged "Listening for speech..." ::
         .captureCall :: r.events,
       r.rest⟩
  | c, .recog (.text t) :: rest =>
    if flagSet sA c then ⟨true, [.checkStop true], .recog (.text t) :: rest⟩
    else
      let pre : List Ev :=
        [.checkStop false, .logged "Listening for speech...", .captureCall,
         .recognizeCall, .sinkCall t] ++
        (if cb t then [.cbRaised t] else []) ++
        [.logged ("Transcribed: " ++ t)]
      if flagSet sA (c + 2) then ⟨true, pre ++ [.checkStop true], rest⟩
      else
        let r := listen_speech cb sA (c + 2) rest
        ⟨r.listening, pre ++ .checkStop false :: r.events, r.rest⟩
  | c, .recog .notUnderstood :: rest =>
    if flagSet sA c then
      ⟨true, [.checkStop true], .recog .notUnderstood :: rest⟩
    else
      let pre : List Ev :=
        [.checkStop false, .logged "Listening for speech...", .captureCall,
         .recognizeCall,
         .logged "Speech Error: Could not understand audio."]
      if flagSet sA (c + 2) then ⟨true, pre ++ [.checkStop true], rest⟩
      else
        let r := listen_speech cb sA (c + 2) rest
        ⟨r.listening, pre ++ .checkStop false :: r.events, r.rest⟩
  | c, .recog (.requestError e) :: rest =>
    if flagSet sA c then
      ⟨true, [.checkStop true], .recog (.requestError e) :: rest⟩
    else
      ⟨false,
       [.checkStop false, .logged "Listening for speech...", .captureCall,
        .recognizeCall, .logged ("Speech Error: " ++ e),
        .logged "Stopping speech recognition due to error."],
       rest⟩

/-- Texts passed to the registered callback (`self.callback(text)` inside
`_on_transcription`), in order. -/
def sinkTexts : List Ev → List String
  | [] => []
  | .checkStop _ :: es => sinkTexts es
  | .logged _ :: es => sinkTexts es
  | .captureCall :: es => sinkTexts es
  | .recognizeCall :: es => sinkTexts es
  | .sinkCall t :: es => t :: sinkTexts es
  | .cbRaised _ :: es => sinkTexts es

/-- Number of blocking backend calls (capture or recognize) in a trace. -/
def blockCount : List Ev → Nat
  | [] => 0
  | .checkStop _ :: es => blockCount es
  | .logged _ :: es => blockCount es
  | .captureCall :: es => blockCount es + 1
  | .recognizeCall :: es => blockCount es + 1
  | .sinkCall _ :: es => blockCount es
  | .cbRaised _ :: es => blockCount es

/-- Trace with the caught-callback-exception records removed. -/
def eraseCb : List Ev → List Ev
  | [] => []
  | .checkStop b :: es => .checkStop b :: eraseCb es
  | .logged m :: es => .logged m :: eraseCb es
  | .captureCall :: es => .captureCall :: eraseCb es
  | .recognizeCall :: es => .recognizeCall :: eraseCb es
  | .sinkCall t :: es => .sinkCall t :: eraseCb es
  | .cbRaised _ :: es => eraseCb es

/-- Scanner for `separatedChecks`: `ok` records whether a flag read has
occurred since the last blocking call (initially true). -/
def sepChecksAux : List Ev → Bool → Bool
  | [], _ => true
  | .captureCall :: es, ok => ok && sepChecksAux es false
  | .recognizeCall :: es, ok => ok && sepChecksAux es false
  | .checkStop _ :: es, _ => sepChecksAux es true
  | _ :: es, ok => sepChecksAux es ok

/-- A trace re-checks the cancellation flag before and after each blocking
call when between any two consecutive blocking-call events there is at
least one flag read. -/
def separatedChecks (es : List Ev) : Bool :=
  sepChecksAux es true

/-- Controller state: the mutable attributes set in `STTListener.__init__`,
plus `threads`, the number of live worker threads. -/
structure Ctrl where
  mic : Bool
  is_listening : Bool
  is_wake_mode : Bool
  is_auto_wake_send : Bool
  stop_flag : Bool
  speech_thread : Bool
  threads : Nat
deriving DecidableEq, Repr

/-- State established by `__init__` (src/stt_listener.py lines 21-32):
idle, no flags, no thread; `m` records whether `init_microphone`
succeeded. -/
def initCtrl (m : Bool) : Ctrl :=
  ⟨m, false, false, false, false, false, 0⟩

/-- Embedding of `STTListener.toggle_speech` (lines 124-142).  Returns the
new state and the messages sent through the log sink. -/
def toggle_speech (s : Ctrl) : Ctrl × List String :=
  if !s.is_listening then
    if !s.mic then (s, ["Error: Microphone not initialized"])
    else
      ({ s with is_listening := true, stop_flag := false,
                speech_thread := true, threads := s.threads + 1 }, [])
  else
    ({ s with is_listening := false, stop_flag := true,
              threads := if s.speech_thread then s.threads - 1 else s.threads,
              speech_thread := false }, [])

/-- Embedding of `STTListener.start_speech` (lines 145-147). -/
def start_speech (s : Ctrl) : Ctrl × List String :=
  if !s.is_listening then toggle_speech s else (s, [])

/-- Embedding of `STTListener.stop_speech` (lines 149-151). -/
def stop_speech (s : Ctrl) : Ctrl × List String :=
  if s.is_listening then toggle_speech s else (s, [])

/-- Embedding of `STTListener.shutdown` (lines 153-160): sets the
cancellation flag, clears `is_listening` and both wake-mode flags, joins
the worker if a handle is stored; the handle itself is not cleared. -/
def shutdown (s : Ctrl) : Ctrl × List String :=
  ({ s with stop_flag := true, is_listening := false,
            is_wake_mode := false, is_auto_wake_send := false,
            threads := if s.speech_thread then s.threads - 1 else s.threads },
   [])

/-- Caller-side API calls considered by the lifecycle invariant. -/
inductive Call where
  | start
  | stop
deriving DecidableEq, Repr

/-- Apply one API call to the controller state. -/
def applyCall : Call → Ctrl → Ctrl
  | .start, s => (start_speech s).1
  | .stop, s => (stop_speech s).1

/-- Run a sequence of API calls from a given state. -/
def runCalls : List Call → Ctrl → Ctrl
  | [], s => s
  | cl :: rest, s => runCalls rest (applyCall cl s)

/-- Default configuration record written on first run
(src/stt_listener.py lines 48-54), as the ordered key/value list of the
source dict literal. -/
def defaultConfig : List (String × ℚ) :=
  [("device_index", 0), ("energy_threshold", 5), ("pause_threshold", 1),
   ("phrase_time_limit", 40), ("timeout", 1)]

/-- Embedding of `STTListener.load_config` (lines 43-57).  The side file
`config.json` is an `Option` of its parsed contents; the result is the
configuration in use together with the file state afterwards. -/
def load_config :
    Option (List (String × ℚ)) →
      List (String × ℚ) × Option (List (String × ℚ))
  | some c => (c, some c)
  | none => (defaultConfig, some defaultConfig)

/-- Result of running the constructor: the configuration in use, the
config-file state, and the controller state. -/
structure STTInit where
  config : List (String × ℚ)
  file : Option (List (String × ℚ))
  ctrl : Ctrl
deriving DecidableEq, Repr

/-- Embedding of `STTListener.__init__` with no explicit `config`
argument: loads (or creates) the configuration, then initialises the
microphone (success recorded by `m`); no capture call happens here. -/
def sttInit (m : Bool) (fs : Option (List (String × ℚ))) : STTInit :=
  { config := (load_config fs).1, file := (load_config fs).2,
    ctrl := initCtrl m }

/-! Helper lemmas shared by the claim theorems. -/

lemma sinkTexts_append (a b : List Ev) :
    sinkTexts (a ++ b) = sinkTexts a ++ sinkTexts b := by
  induction a with
  | nil => rfl
  | cons e es ih => cases e <;> simp [sinkTexts, ih]

lemma sinkTexts_cbIf (b : Bool) (t : String) :
    sinkTexts (if b then [Ev.cbRaised t] else []) = [] := by
  cases b <;> rfl

lemma blockCount_append (a b : List Ev) :
    blockCount (a ++ b) = blockCount a + blockCount b := by
  induction a with
  | nil => simp [blockCount]
  | cons e es ih => cases e <;> simp [blockCount, ih] <;> omega

lemma blockCount_cbIf (b : Bool) (t : String) :
    blockCount (if b then [Ev.cbRaised t] else []) = 0 := by
  cases b <;> rfl

lemma eraseCb_append (a b : List Ev) :
    eraseCb (a ++ b) = eraseCb a ++ eraseCb b := by
  induction a with
  | nil => rfl
  | cons e es ih => cases e <;> simp [eraseCb, ih]

lemma eraseCb_cbIf (b : Bool) (t : String) :
    eraseCb (if b then [Ev.cbRaised t] else []) = [] := by
  cases b <;> rfl

/-- Lifecycle invariant of the sequential model: the live-thread count
matches the running flag, and a handle is stored exactly while running. -/
def wf (s : Ctrl) : Prop :=
  s.threads = (if s.is_listening then 1 else 0) ∧
  s.speech_thread = s.is_listening

lemma wf_applyCall (cl : Call) (s : Ctrl) (h : wf s) : wf (applyCall cl s) := by
  obtain ⟨h1, h2⟩ := h
  cases cl <;> cases hl : s.is_listening <;> cases hm : s.mic <;>
    simp_all [applyCall, start_speech, stop_speech, toggle_speech, wf]

lemma wf_runCalls (calls : List Call) (s : Ctrl) (h : wf s) :
    wf (runCalls calls s) := by
  induction calls generalizing s with
  | nil => exact h
  | cons cl rest ih => exact ih _ (wf_applyCall cl s h)

/-- Worker runs over a purely timing-out capture backend, with the blocking
call counter generalised. -/
lemma timeout_run (cb : String → Bool) (n : Nat) : ∀ (c : Nat),
    (listen_speech cb none c (List.replicate n .timeout)).listening = true ∧
    sinkTexts (listen_speech cb none c (List.replicate n .timeout)).events
      = [] ∧
    (listen_speech cb none c (List.replicate n .timeout)).rest = [] := by
  induction n with
  | zero => intro c; simp [listen_speech, flagSet, sinkTexts]
  | succ k ih =>
    intro c
    simpa [List.replicate_succ, listen_speech, flagSet, sinkTexts]
      using ih (c + 1)

/-! Claim theorems. -/

/-- Claim C1: for every sequence of start()/stop() calls from the freshly
constructed controller, at most one worker thread is live at any time;
start() while already running leaves the state unchanged with no new
thread, and stop() while idle leaves the state unchanged. -/
theorem C1_single_worker :
    (∀ (m : Bool) (calls : List Call),
        (runCalls calls (initCtrl m)).threads ≤ 1) ∧
    (∀ s : Ctrl, s.is_listening = true → start_speech s = (s, [])) ∧
    (∀ s : Ctrl, s.is_listening = false → stop_speech s = (s, [])) := by
  refine ⟨?_, ?_, ?_⟩
  · intro m calls
    obtain ⟨h1, -⟩ := wf_runCalls calls (initCtrl m) ⟨rfl, rfl⟩
    rw [h1]
    split <;> omega
  · intro s h
    simp [start_speech, h]
  · intro s h
    simp [stop_speech, h]

/-- Witness for C1 at concrete inputs. -/
theorem C1_single_worker_witness :
    (runCalls [Call.start, Call.start, Call.stop] (initCtrl true)).threads
        ≤ 1 ∧
    ((⟨true, true, false, false, false, true, 1⟩ : Ctrl).is_listening
        = true ∧
      start_speech ⟨true, true, false, false, false, true, 1⟩
        = (⟨true, true, false, false, false, true, 1⟩, [])) ∧
    ((initCtrl true).is_listening = false ∧
      stop_speech (initCtrl true) = (initCtrl true, [])) :=
  ⟨C1_single_worker.1 true [Call.start, Call.start, Call.stop],
   ⟨rfl, C1_single_worker.2.1 _ rfl⟩,
   ⟨rfl, C1_single_worker.2.2 _ rfl⟩⟩

/-- Claim C2: with a backend yielding NotUnderstood on the first sample and
BackendUnavailable on the second, the text sink is never invoked, a log
event carrying the error is emitted, the worker loop breaks after the
second recognition call (no further backend input is consumed), and the
worker leaves running=false, so resuming needs an explicit start(). -/
theorem C2_backend_unavailable_fatal (e : String) (x : List Iter)
    (cb : String → Bool) :
    sinkTexts (listen_speech cb none 0
        (.recog .notUnderstood :: .recog (.requestError e) :: x)).events
      = [] ∧
    (listen_speech cb none 0
        (.recog .notUnderstood :: .recog (.requestError e) :: x)).listening
      = false ∧
    (listen_speech cb none 0
        (.recog .notUnderstood :: .recog (.requestError e) :: x)).rest
      = x ∧
    Ev.logged ("Speech Error: " ++ e) ∈ (listen_speech cb none 0
        (.recog .notUnderstood :: .recog (.requestError e) :: x)).events := by
  simp [listen_speech, flagSet, sinkTexts]

/-- Claim C3, counterexample: in the concrete run where capture succeeds
once and recognition reports NotUnderstood, the trace has the capture call
immediately followed by the recognize call with no read of the cancellation
flag between the two blocking calls — the flag is not re-checked both
before and after each of the two blocking calls. -/
theorem C3_no_check_between_calls :
    separatedChecks (listen_speech (fun _ => false) none 0
        [Iter.recog RecogOutcome.notUnderstood]).events = false := by
  rfl

/-- Claim C3 as amended: the cancellation flag is read at the top of every
iteration and again after the recognition call on the success and
not-understood paths, but not between the capture and the recognize call;
still, once the flag is set (after `n` completed blocking calls) the worker
finishes at most the current iteration: a run entered with `c` completed
calls makes at most `n + 1 - c` blocking calls in total, and a worker that
reaches a check with the flag already set exits at once, making none. -/
theorem C3_prompt_exit :
    (∀ (cb : String → Bool) (n c : Nat) (ins : List Iter),
        blockCount (listen_speech cb (some n) c ins).events ≤ n + 1 - c) ∧
    (∀ (cb : String → Bool) (n c : Nat) (ins : List Iter), n ≤ c →
        listen_speech cb (some n) c ins = ⟨true, [Ev.checkStop true], ins⟩)
    := by
  constructor
  · intro cb n c ins
    induction ins generalizing c with
    | nil =>
      cases hf : flagSet (some n) c <;>
        simp [listen_speech, hf, blockCount]
    | cons it rest ih =>
      cases hf : flagSet (some n) c
      · have hc : ¬ n ≤ c := by simpa [flagSet] using hf
        cases it with
        | timeout =>
          have h := ih (c + 1)
          simp [listen_speech, hf, blockCount]
          omega
        | recog r =>
          cases r with
          | text t =>
            cases hf2 : flagSet (some n) (c + 2)
            · have h := ih (c + 2)
              simp [listen_speech, hf, hf2, blockCount, blockCount_append,
                blockCount_cbIf]
              omega
            · simp [listen_speech, hf, hf2, blockCount, blockCount_append,
                blockCount_cbIf]
              omega
          | notUnderstood =>
            cases hf2 : flagSet (some n) (c + 2)
            · have h := ih (c + 2)
              simp [listen_speech, hf, hf2, blockCount, blockCount_append]
              omega
            · simp [listen_speech, hf, hf2, blockCount, blockCount_append]
              omega
          | requestError e =>
            simp [listen_speech, hf, blockCount]
            omega
      · cases it with
        | timeout => simp [listen_speech, hf, blockCount]
        | recog r => cases r <;> simp [listen_speech, hf, blockCount]
  · intro cb n c ins h
    have hf : flagSet (some n) c = true := by simp [flagSet, h]
    cases ins with
    | nil => simp [listen_speech, hf]
    | cons it rest =>
      cases it with
      | timeout => simp [listen_speech, hf]
      | recog r => cases r <;> simp [listen_speech, hf]

/-- Witness for C3 as amended at concrete inputs. -/
theorem C3_prompt_exit_witness :
    blockCount (listen_speech (fun _ => false) (some 1) 0
        [Iter.recog (RecogOutcome.text "hi")]).events ≤ 1 + 1 - 0 ∧
    ((1 : Nat) ≤ 1 ∧ listen_speech (fun _ => false) (some 1) 1 []
        = ⟨true, [Ev.checkStop true], []⟩) :=
  ⟨C3_prompt_exit.1 (fun _ => false) 1 0 [Iter.recog (RecogOutcome.text "hi")],
   Nat.le_refl 1,
   C3_prompt_exit.2 (fun _ => false) 1 1 [] (Nat.le_refl 1)⟩

/-- Claim C4, counterexample: from the running state with a stored worker
handle, the state after shutdown() is not the state after stop() with only
the wake-mode flags changed, because stop() clears the stored thread handle
and shutdown() does not. -/
theorem C4_shutdown_differs :
    ¬ ((shutdown ⟨true, true, false, false, false, true, 1⟩).1 =
        { (stop_speech ⟨true, true, false, false, false, true, 1⟩).1 with
          is_wake_mode := false, is_auto_wake_send := false }) := by
  decide

/-- Claim C4 as amended: on a running controller, shutdown() makes the same
state changes as stop() — sets the cancellation flag, sets running=false,
joins the worker with the bounded timeout — and additionally clears the
wake-mode flags, except that unlike stop() it does not clear the stored
worker-thread handle: the resulting states agree everywhere but the
wake-mode flags and the thread-handle field, and neither call emits a
log-sink message. -/
theorem C4_shutdown_vs_stop (s : Ctrl) (h : s.is_listening = true) :
    (shutdown s).1 =
      { (stop_speech s).1 with
          is_wake_mode := false
          is_auto_wake_send := false
          speech_thread := s.speech_thread } ∧
    (shutdown s).2 = [] ∧ (stop_speech s).2 = [] := by
  refine ⟨?_, rfl, ?_⟩ <;> simp [shutdown, stop_speech, toggle_speech, h]

/-- Witness for C4 as amended at a concrete running state. -/
theorem C4_shutdown_vs_stop_witness :
    (⟨true, true, true, true, false, true, 1⟩ : Ctrl).is_listening = true ∧
    ((shutdown ⟨true, true, true, true, false, true, 1⟩).1 =
        { (stop_speech ⟨true, true, true, true, false, true, 1⟩).1 with
            is_wake_mode := false
            is_auto_wake_send := false
            speech_thread :=
              (⟨true, true, true, true, false, true, 1⟩ : Ctrl).speech_thread }
      ∧ (shutdown ⟨true, true, true, true, false, true, 1⟩).2 = []
      ∧ (stop_speech ⟨true, true, true, true, false, true, 1⟩).2 = []) :=
  ⟨rfl, C4_shutdown_vs_stop ⟨true, true, true, true, false, true, 1⟩ rfl⟩

/-- Claim C5: with a capture backend that times out on every call, a worker
run over any number of iterations never invokes the text sink, consumes
every iteration without breaking, and leaves the worker-side running flag
true — the loop ends only when stop()/shutdown() sets the flag. -/
theorem C5_timeout_is_nonfatal (n : Nat) (cb : String → Bool) :
    (listen_speech cb none 0 (List.replicate n .timeout)).listening
      = true ∧
    sinkTexts (listen_speech cb none 0 (List.replicate n .timeout)).events
      = [] ∧
    (listen_speech cb none 0 (List.replicate n .timeout)).rest = [] :=
  timeout_run cb n 0

/-- Claim C6: start() on a controller that is not running and has a working
microphone clears the cancellation flag, spawns exactly one worker thread,
sets running=true and stores the handle, changes nothing else, and emits no
log-sink message. -/
theorem C6_start_spawns_worker (s : Ctrl) (hm : s.mic = true)
    (hl : s.is_listening = false) :
    start_speech s =
      ({ s with is_listening := true, stop_flag := false,
                speech_thread := true, threads := s.threads + 1 }, []) := by
  simp [start_speech, toggle_speech, hm, hl]

/-- Witness for C6 at the freshly constructed controller. -/
theorem C6_start_spawns_worker_witness :
    (initCtrl true).mic = true ∧ (initCtrl true).is_listening = false ∧
    start_speech (initCtrl true) =
      ({ initCtrl true with
           is_listening := true
           stop_flag := false
           speech_thread := true
           threads := (initCtrl true).threads + 1 },
       []) :=
  ⟨rfl, rfl, C6_start_spawns_worker (initCtrl true) rfl rfl⟩

/-- Claim C7: when recognition yields text t1 on the first sample and t2 on
the second, the registered text callback is invoked exactly twice, with t1
first and t2 second and no other invocations, whatever the callback
does. -/
theorem C7_sink_order (t1 t2 : String) (cb : String → Bool) :
    sinkTexts (listen_speech cb none 0
        [.recog (.text t1), .recog (.text t2)]).events = [t1, t2] := by
  simp [listen_speech, flagSet, sinkTexts, sinkTexts_append, sinkTexts_cbIf]

/-- Claim C8: construction with no persisted configuration file creates the
default record, persists it to the side file and uses it, while
construction with an existing file loads its contents and leaves the file
unchanged; the default record carries exactly the fields device_index,
energy_threshold, pause_threshold, phrase_time_limit and timeout.  In the
model the constructor performs no capture call: captures happen only inside
a `listen_speech` run, which starts only after `start_speech`. -/
theorem C8_config_load :
    (∀ m : Bool, (sttInit m none).config = defaultConfig ∧
        (sttInit m none).file = some defaultConfig) ∧
    (∀ (m : Bool) (c : List (String × ℚ)),
        (sttInit m (some c)).config = c ∧
        (sttInit m (some c)).file = some c) ∧
    defaultConfig.map Prod.fst =
      ["device_index", "energy_threshold", "pause_threshold",
       "phrase_time_limit", "timeout"] :=
  ⟨fun _ => ⟨rfl, rfl⟩, fun _ _ => ⟨rfl, rfl⟩, rfl⟩

/-- Claim C9: a text callback that raises is caught inside the worker and
only adds a caught-exception log record to the trace: compared with a
never-raising callback, the run has the same worker-side running flag (the
cancellation flag, external to the run, is untouched), consumes the same
backend input, and yields the same trace once the caught-exception records
are erased — so the loop continues with the next iteration. -/
theorem C9_callback_exception_contained (cb : String → Bool)
    (sA : Option Nat) : ∀ (ins : List Iter) (c : Nat),
    (listen_speech cb sA c ins).listening
      = (listen_speech (fun _ => false) sA c ins).listening ∧
    eraseCb (listen_speech cb sA c ins).events
      = (listen_speech (fun _ => false) sA c ins).events ∧
    (listen_speech cb sA c ins).rest
      = (listen_speech (fun _ => false) sA c ins).rest := by
  intro ins
  induction ins with
  | nil =>
    intro c
    cases hf : flagSet sA c <;> simp [listen_speech, hf, eraseCb]
  | cons it rest ih =>
    intro c
    cases hf : flagSet sA c
    · cases it with
      | timeout =>
        simpa [listen_speech, hf, eraseCb] using ih (c + 1)
      | recog r =>
        cases r with
        | text t =>
          cases hf2 : flagSet sA (c + 2)
          · simpa [listen_speech, hf, hf2, eraseCb, eraseCb_append,
              eraseCb_cbIf] using ih (c + 2)
          · simp [listen_speech, hf, hf2, eraseCb, eraseCb_append,
              eraseCb_cbIf]
        | notUnderstood =>
          cases hf2 : flagSet sA (c + 2)
          · simpa [listen_speech, hf, hf2, eraseCb, eraseCb_append]
              using ih (c + 2)
          · simp [listen_speech, hf, hf2, eraseCb, eraseCb_append]
        | requestError e =>
          simp [listen_speech, hf, eraseCb]
    · cases it with
      | timeout => simp [listen_speech, hf, eraseCb]
      | recog r => cases r <;> simp [listen_speech, hf, eraseCb]

/-- Claim C10: start() on an idle controller whose microphone failed to
initialize sends an error message to the log sink and returns with the
state completely unchanged — running stays false, the cancellation flag is
untouched, and no worker thread is spawned. -/
theorem C10_start_without_mic (s : Ctrl) (hm : s.mic = false)
    (hl : s.is_listening = false) :
    start_speech s = (s, ["Error: Microphone not initialized"]) := by
  simp [start_speech, toggle_speech, hm, hl]

/-- Witness for C10 at a controller whose microphone initialization
failed. -/
theorem C10_start_without_mic_witness :
    (initCtrl false).mic = false ∧ (initCtrl false).is_listening = false ∧
    start_speech (initCtrl false)
      = (initCtrl false, ["Error: Microphone not initialized"]) :=
  ⟨rfl, rfl, C10_start_without_mic (initCtrl false) rfl rfl⟩

end STT
